import Mathlib

/-!
Verification of the retrieval/synthesis core of the Smart Building AI
Assistant (files `AutoGenAI.py` and `chromadb_compat.py`).

Texts are modelled as `List Char` (Python `str` is a sequence of
characters); Python floats are modelled as `ℚ` (all arithmetic the code
performs on them is exact on small rationals); the Python builtin `hash`
is an explicit parameter.  Each definition is a direct translation of the
corresponding Python function, named after it where Lean allows.
-/

set_option maxRecDepth 10000

/-- Python character whitespace test covering `str.split()` / `str.strip()`
and the `\s` class of the `re` module, on the ASCII range. -/
def pyIsWs (c : Char) : Bool :=
  c = ' ' ∨ c = '\t' ∨ c = '\n' ∨ c = '\r' ∨ c = '\x0b' ∨ c = '\x0c'

/-- Python `str.lower()` (ASCII range). -/
def pyLower (s : List Char) : List Char := s.map Char.toLower

/-- Python `str.split()` with no separator: split on whitespace runs,
dropping empty pieces. -/
def pySplitWs : List Char → List (List Char)
  | [] => []
  | c :: rest =>
    if pyIsWs c then pySplitWs rest
    else
      match pySplitWs rest with
      | [] => [[c]]
      | w :: ws => if rest ≠ [] ∧ pyIsWs (rest.headI) then [c] :: w :: ws
                   else (c :: w) :: ws

/-- Python `str.strip()`: remove leading and trailing whitespace. -/
def pyStrip (s : List Char) : List Char :=
  ((s.dropWhile pyIsWs).reverse.dropWhile pyIsWs).reverse

/-- Python `str.split(sep)` for a one-character separator: empty pieces
are kept. -/
def pySplitOn (sep : Char) : List Char → List (List Char)
  | [] => [[]]
  | c :: rest =>
    match pySplitOn sep rest with
    | [] => [[]]
    | w :: ws => if c = sep then [] :: w :: ws else (c :: w) :: ws

/-- Auxiliary for substring search: does `hay` start with `needle`? -/
def startsW : List Char → List Char → Bool
  | _, [] => true
  | [], _ :: _ => false
  | a :: as, b :: bs => a = b && startsW as bs

/-- Python `needle in hay` on strings: substring containment. -/
def hasSub (needle : List Char) : List Char → Bool
  | [] => startsW [] needle
  | c :: rest => startsW (c :: rest) needle || hasSub needle rest

section Chunker

/-!
`SmartBuildingKnowledgeBase.chunk_text` (AutoGenAI.py lines 238-247):

    chunks = []
    start = 0
    while start < len(text):
        end = start + chunk_size
        chunk = text[start:end]
        chunks.append(chunk)
        start = end - overlap
    return chunks

The loop is modelled with explicit fuel because for `overlap ≥ chunk_size`
the Python loop does not terminate; positions are naturals, which agrees
with the Python integers on the domain `overlap < chunk_size` that every
claim about this function assumes.
-/

/-- One fuel-indexed run of the `chunk_text` while-loop from position
`start`.  `none` means the fuel ran out before the loop finished. -/
def chunkLoop (text : List Char) (size overlap : ℕ) :
    ℕ → ℕ → Option (List (List Char))
  | 0, _ => none
  | fuel + 1, start =>
    if start < text.length then
      match chunkLoop text size overlap fuel (start + size - overlap) with
      | none => none
      | some rest => some (((text.drop start).take size) :: rest)
    else
      some []

/-- `chunk_text(text, chunk_size, overlap)`: the loop started at 0, with
enough fuel for every terminating configuration. -/
def chunk_text (text : List Char) (size overlap : ℕ) :
    Option (List (List Char)) :=
  chunkLoop text size overlap (text.length + 1) 0

/-- `chunk_text` with the source's default arguments
`chunk_size=1000, overlap=200`, as invoked by `add_document` and
`add_url_to_knowledge_base`. -/
def chunkTextDefault (text : List Char) : List (List Char) :=
  (chunk_text text 1000 200).getD []

end Chunker

section Embedder

/-!
`SmartBuildingKnowledgeBase.simple_embedding` (AutoGenAI.py lines 183-198):

    clean_text = re.sub(r'[^a-zA-Z0-9\s]', '', text.lower())
    words = clean_text.split()
    embedding = [0.0] * 100
    for i, word in enumerate(words[:100]):
        hash_val = hash(word) % 100
        embedding[hash_val] += 1.0
    total = sum(embedding) or 1
    return [x / total for x in embedding]

The Python builtin `hash` (randomized per process) is an explicit
parameter `h`.
-/

/-- Characters kept by `re.sub(r'[^a-zA-Z0-9\s]', '', ...)` (ASCII range). -/
def keepChar (c : Char) : Bool := c.isAlpha || c.isDigit || pyIsWs c

/-- The word tokens of the cleaned, lowercased text:
`re.sub(r'[^a-zA-Z0-9\s]', '', text.lower()).split()`. -/
def cleanTokens (text : List Char) : List (List Char) :=
  pySplitWs ((pyLower text).filter keepChar)

/-- `embedding[i] += 1.0` on a 100-slot vector. -/
def incAt (v : List ℚ) (i : ℕ) : List ℚ := v.set i (v.getD i 0 + 1)

/-- The bucket-count loop of `simple_embedding`. -/
def embedCounts (h : List Char → ℕ) (ws : List (List Char)) : List ℚ :=
  ws.foldl (fun v w => incAt v (h w % 100)) (List.replicate 100 (0 : ℚ))

/-- `simple_embedding(text)` with hash function `h`. -/
def simple_embedding (h : List Char → ℕ) (text : List Char) : List ℚ :=
  let emb := embedCounts h ((cleanTokens text).take 100)
  let total := if emb.sum = 0 then 1 else emb.sum
  emb.map (fun x => x / total)

end Embedder

section FallbackSearch

/-!
The keyword-overlap fallback branch of
`SmartBuildingKnowledgeBase.search_documents` (AutoGenAI.py lines 546-573):

    all_docs = self.collection.get()
    text_results = []
    query_words = set(query.lower().split())
    for i, doc in enumerate(all_docs['documents']):
        doc_words = set(doc.lower().split())
        overlap = len(query_words.intersection(doc_words))
        if overlap > 0:
            text_results.append({'document': doc,
                                 'metadata': all_docs['metadatas'][i],
                                 'score': overlap})
    text_results.sort(key=lambda x: x['score'], reverse=True)
    search_results = []
    for result in text_results[:n_results]:
        search_results.append({
            "content": result['document'],
            "metadata": result['metadata'],
            "distance": 1.0 - (result['score'] / len(query_words))})
    return search_results

Stored documents are modelled pre-paired with their metadata (the Python
loop pairs them by index).  Sets of words are modelled by `List.dedup`:
the intersection cardinality is the number of distinct query words that
also occur among the document's words.
-/

/-- `len(set(query.lower().split()) ∩ set(doc.lower().split()))`. -/
def overlapScore (query doc : List Char) : ℕ :=
  (((pySplitWs (pyLower query)).dedup).filter
    (fun w => (pySplitWs (pyLower doc)).contains w)).length

/-- `len(set(query.lower().split()))`. -/
def qwCount (query : List Char) : ℕ := ((pySplitWs (pyLower query)).dedup).length

/-- Stable insertion into a score-descending list: the element goes after
every earlier element of greater-or-equal score, exactly where Python's
stable `sort(..., reverse=True)` keeps it. -/
def insDesc {β : Type} (x : β × ℕ) : List (β × ℕ) → List (β × ℕ)
  | [] => [x]
  | y :: ys => if y.2 < x.2 then x :: y :: ys else y :: insDesc x ys

/-- Stable descending sort by score, `text_results.sort(key=score, reverse=True)`. -/
def sortDesc {β : Type} : List (β × ℕ) → List (β × ℕ)
  | [] => []
  | x :: xs => insDesc x (sortDesc xs)

/-- The scored `text_results` list: documents with positive word overlap,
in storage order, with their scores. -/
def scoredResults {α : Type} (docs : List (List Char × α)) (query : List Char) :
    List ((List Char × α) × ℕ) :=
  docs.filterMap (fun d =>
    if 0 < overlapScore query d.1 then some (d, overlapScore query d.1) else none)

/-- The fallback branch of `search_documents`: the returned
(content, metadata)-with-distance list.  The distance of each returned
entry is the evaluated expression `1.0 - (score / len(query_words))`. -/
def fallbackSearch {α : Type} (docs : List (List Char × α)) (query : List Char)
    (n : ℕ) : List ((List Char × α) × ℚ) :=
  ((sortDesc (scoredResults docs query)).take n).map
    (fun r => (r.1, (1 : ℚ) - (r.2 : ℚ) / (qwCount query : ℚ)))

end FallbackSearch


section Ingestion

/-!
`SmartBuildingKnowledgeBase.extract_text_from_file` (AutoGenAI.py lines
200-236) dispatches on the lowercased file extension.  The per-format
library calls (PyPDF2, docx2txt, pandas, json) are I/O and are modelled
by an oracle `read` giving either the text they produce or the message of
the exception they raise; the function itself contributes only the
dispatch, the `except` clause turning an exception into the
`"Error reading file {path}: {msg}"` string, and the final
`return "Unsupported file format"` reached when no extension matched.
-/

/-- Outcome of the extraction-library call for one file. -/
inductive ExtractOutcome where
  | ok (text : List Char)
  | exnMsg (msg : List Char)

/-- The extensions with a handler branch in `extract_text_from_file`. -/
def recognizedExt (ext : List Char) : Bool :=
  [(".pdf".data), (".docx".data), (".doc".data), (".txt".data),
   (".xlsx".data), (".xls".data), (".csv".data), (".json".data)].contains ext

/-- `extract_text_from_file(file_path)` for a file whose suffix is
`suffix` and whose extraction-library call yields `read`. -/
def extract_text_from_file (read : ExtractOutcome) (filePath suffix : List Char) :
    List Char :=
  let ext := pyLower suffix
  if recognizedExt ext then
    match read with
    | .ok t => t
    | .exnMsg m => ("Error reading file ".data) ++ filePath ++ (": ".data) ++ m
  else ("Unsupported file format".data)

/-!
`SmartBuildingKnowledgeBase.add_document` (AutoGenAI.py lines 483-533),
for an existing file whose extracted text is `text`.  The collection is
modelled by its stored chunk texts:

    text = self.extract_text_from_file(file_path)
    if not text or text.startswith("Error"):
        return False
    chunks = self.chunk_text(text)
    ... self.collection.add(...)
    return True
-/

/-- `add_document` after extraction: returns the success flag and the new
collection contents. -/
def add_document (coll : List (List Char)) (text : List Char) :
    Bool × List (List Char) :=
  if text.isEmpty || startsW text ("Error".data) then (false, coll)
  else (true, coll ++ chunkTextDefault text)

/-!
`SmartBuildingKnowledgeBase.add_url_to_knowledge_base` (AutoGenAI.py
lines 385-443), for a URL whose `extract_text_from_url` result is `text`:

    if text.startswith("Error"):
        return False
    if len(text.strip()) < 100:
        return False
    chunks = self.chunk_text(text)
    ... self.collection.add(...)
    return True
-/

/-- `add_url_to_knowledge_base` after URL extraction: the success flag and
the new collection contents. -/
def add_url_to_knowledge_base (coll : List (List Char)) (text : List Char) :
    Bool × List (List Char) :=
  if startsW text ("Error".data) then (false, coll)
  else if (pyStrip text).length < 100 then (false, coll)
  else (true, coll ++ chunkTextDefault text)

end Ingestion

section TierD

/-!
The pure in-process fallback tier of `ChromaDBWrapper`
(chromadb_compat.py).  `fallback_storage` is a Python dict id → entry;
a dict preserves insertion order and an insert with an existing key
updates the value in place.  `query_documents` (lines 114-134) on this
tier is:

    results = {'documents': [[]], 'metadatas': [[]], 'distances': [[]]}
    search_results = list(self.fallback_storage.values())[:n_results]
    if search_results:
        results['documents'] = [[item['document'] for item in search_results]]
        results['metadatas'] = [[item['metadata'] for item in search_results]]
        results['distances'] = [[0.5] * len(search_results)]
    return results
-/

/-- One `fallback_storage` value: `{'document', 'metadata', 'embedding'}`. -/
structure FbEntry (mu : Type) where
  document : List Char
  metadata : mu
  embedding : List ℚ

/-- The result dict of `query_documents`. -/
structure QueryRes (mu : Type) where
  documents : List (List (List Char))
  metadatas : List (List mu)
  distances : List (List ℚ)

/-- `self.fallback_storage[ids[i]] = {...}`: dict insert, updating in
place when the key exists and appending otherwise. -/
def fbInsert {mu : Type} (st : List (List Char × FbEntry mu)) (id : List Char)
    (e : FbEntry mu) : List (List Char × FbEntry mu) :=
  if st.any (fun p => p.1 == id) then
    st.map (fun p => if p.1 == id then (id, e) else p)
  else st ++ [(id, e)]

/-- `ChromaDBWrapper.add_documents` on the fallback tier: the loop storing
`documents[i]`, `metadatas[i]`, `embeddings[i]` under `ids[i]`. -/
def add_documents {mu : Type} (st : List (List Char × FbEntry mu))
    (entries : List (List Char × FbEntry mu)) : List (List Char × FbEntry mu) :=
  entries.foldl (fun s pe => fbInsert s pe.1 pe.2) st

/-- `ChromaDBWrapper.query_documents` on the fallback tier. -/
def query_documents {mu : Type} (st : List (List Char × FbEntry mu))
    (queryEmbeddings : List (List ℚ)) (n : ℕ) : QueryRes mu :=
  let sr := (st.map (fun p => p.2)).take n
  if sr.isEmpty then ⟨[[]], [[]], [[]]⟩
  else
    ⟨[sr.map (fun e => e.document)],
     [sr.map (fun e => e.metadata)],
     [List.replicate sr.length ((1 : ℚ) / 2)]⟩

end TierD

section Synthesis

/-!
`SmartBuildingKnowledgeBase.get_context_for_query` (AutoGenAI.py lines
589-756) and `extract_specific_info_from_web_content` (lines 758-811).

A retrieved search result carries its content and the metadata keys the
synthesizer reads (`source_type`, `source_url`, `domain`); `none` models
an absent key.
-/

/-- A retrieved chunk as the synthesizer sees it. -/
structure SearchR where
  content : List Char
  sourceType : Option (List Char)
  sourceUrl : Option (List Char)
  domain : Option (List Char)

/-- Python truthiness of `metadata.get(key)` for a string-valued key. -/
def truthy : Option (List Char) → Bool
  | none => false
  | some s => !s.isEmpty

/-- Line 621: `metadata.get('source_type') == 'web_content' or
metadata.get('source_url')`. -/
def isWebResult (r : SearchR) : Bool :=
  (r.sourceType == some ("web_content".data)) || truthy r.sourceUrl

/-- One entry of `web_content_info` (lines 625-630). -/
structure WebItem where
  content : List Char
  url : List Char
  domain : List Char

/-- Lines 625-630: content with `source_url` / `domain` defaults. -/
def webItemOf (r : SearchR) : WebItem :=
  ⟨r.content, r.sourceUrl.getD ("Unknown URL".data),
   r.domain.getD ("Unknown domain".data)⟩

/-- Lines 781-782: `sum(1 for word in query_lower.split() if word in
sentence_lower)`; duplicate query words count twice, membership is
substring containment. -/
def matchCount (query sentence : List Char) : ℕ :=
  (pySplitWs (pyLower query)).countP (fun w => hasSub w (pyLower sentence))

/-- Lines 772-785: the stripped `'.'`-separated sentences of the content
that are longer than 20 characters and contain at least one query word,
in document order. -/
def relevantSentences (query content : List Char) : List (List Char) :=
  ((pySplitOn '.' content).map pyStrip).filter
    (fun s => decide (20 < s.length) && decide (0 < matchCount query s))

/-- Line 790: `top_sentences = relevant_sentences[:3]`. -/
def keyInfoOf (query content : List Char) : List (List Char) :=
  (relevantSentences query content).take 3

/-- Python `str.replace(pat, repl)`: replace every non-overlapping
occurrence, left to right. -/
def pyReplace (pat repl : List Char) (s : List Char) : List Char :=
  match s with
  | [] => []
  | c :: rest =>
    if h : pat ≠ [] ∧ startsW (c :: rest) pat = true then
      repl ++ pyReplace pat repl ((c :: rest).drop pat.length)
    else c :: pyReplace pat repl rest
termination_by s.length
decreasing_by
  · simp only [List.length_drop, List.length_cons]
    have : pat.length ≠ 0 := fun h0 => h.1 (List.length_eq_zero.mp h0)
    omega
  · simp only [List.length_cons]
    omega

/-- Newline join, `"\n".join(lines)`. -/
def joinNl : List (List Char) → List Char
  | [] => []
  | [x] => x
  | x :: y :: rest => x ++ '\n' :: joinNl (y :: rest)

/-- `extract_specific_info_from_web_content(web_content_info, query)`
(lines 758-811): for every source with at least one relevant sentence,
emit a `From domain` header, a bullet per surfaced sentence, a source
line and a blank line, newline-joined; `""` when nothing was found. -/
def extract_specific_info_from_web_content (items : List WebItem)
    (query : List Char) : List Char :=
  let extracted := items.filterMap (fun it =>
    let key := keyInfoOf query it.content
    if key.isEmpty then none else some (it, key))
  if extracted.isEmpty then []
  else
    joinNl (extracted.foldr (fun p acc =>
      (("📄 **From ".data) ++ pyReplace ("www.".data) [] p.1.domain ++ (":**".data)) ::
      (p.2.map (fun info => ("   • ".data) ++ info) ++
        ((("   🔗 Source: ".data) ++ p.1.url) :: ("".data) :: acc))) [])

/-- Advisory paragraph for HVAC queries (line 670). -/
def advHvac : List Char :=
  ("🌡️ **HVAC System Guidelines:** Optimal temperature range is 68-72°F (20-22°C) for comfort and energy efficiency. Smart thermostats can reduce energy consumption by 15-25% through automated scheduling and weather-based adjustments.".data)

/-- Advisory paragraph for lighting queries (line 674). -/
def advLighting : List Char :=
  ("💡 **Lighting Recommendations:** LED systems provide 80% energy savings compared to traditional lighting. Use daylight sensors and occupancy controls for optimal efficiency. Natural light integration can reduce artificial lighting needs by 50-80%.".data)

/-- Advisory paragraph for energy queries (line 678). -/
def advEnergy : List Char :=
  ("⚡ **Energy Efficiency:** Smart scheduling and automated controls can reduce building energy consumption by 20-30%. Monitor peak usage times and implement load balancing. Weather-responsive systems optimize energy use automatically.".data)

/-- Advisory paragraph for safety queries (line 682). -/
def advSafety : List Char :=
  ("🚨 **Safety Protocols:** Fire safety systems require monthly testing. Smoke detectors should be inspected quarterly. Emergency exits must remain clearly marked and accessible. CO2 monitoring ensures air quality.".data)

/-- Advisory paragraph for security queries (line 686). -/
def advSecurity : List Char :=
  ("🔒 **Security Management:** Access control systems should be integrated with occupancy tracking. Motion detectors and cameras require regular maintenance and firmware updates. Implement layered security with multiple detection methods.".data)

/-- Advisory paragraph for room/space queries (line 690). -/
def advRoom : List Char :=
  ("🏢 **Room Management:** Optimize space utilization through occupancy sensors and booking systems. Standard classrooms accommodate 30-62 students with appropriate AV equipment. Track utilization rates for efficient space planning.".data)

/-- Advisory paragraph for equipment queries (line 694). -/
def advEquipment : List Char :=
  ("🔧 **Equipment Management:** IoT devices require regular firmware updates and network connectivity checks. Implement predictive maintenance schedules for optimal performance. Monitor device status for proactive maintenance.".data)

/-- Advisory paragraph for maintenance queries (line 698). -/
def advMaintenance : List Char :=
  ("🛠️ **Maintenance Protocols:** Establish preventive maintenance schedules. HVAC filters should be replaced every 3-6 months. Document all service activities. Use predictive maintenance to prevent equipment failures.".data)

/-- Advisory paragraph for automation queries (line 702). -/
def advAutomation : List Char :=
  ("🤖 **Building Automation:** Integrate all systems for centralized control. Use IoT sensors for real-time monitoring and automated responses to environmental changes. Implement smart scheduling for optimal efficiency.".data)

/-- Advisory paragraph for environmental queries (line 706). -/
def advEnvironmental : List Char :=
  ("🌿 **Environmental Monitoring:** Maintain humidity levels between 30-50% for comfort. Use air quality sensors to monitor CO2 levels and ensure proper ventilation. Implement leak detection systems for water damage prevention.".data)

/-- Advisory paragraph for cost queries (line 710). -/
def advCost : List Char :=
  ("💰 **Cost Management:** Energy-efficient systems can reduce operational costs by 25-40%. Implement smart scheduling to minimize peak demand charges. Weather-responsive controls optimize energy spending.".data)

/-- Advisory paragraph for building-information queries (line 714). -/
def advBuildingInfo : List Char :=
  ("🏢 **Building Information:** The building management system provides comprehensive control over all building operations. Implement integrated monitoring for optimal performance across all systems.".data)

/-- Advisory paragraph for AI/ML queries (line 718). -/
def advAiMl : List Char :=
  ("🤖 **AI & Machine Learning:** Implement predictive analytics for equipment failure prediction, energy consumption forecasting, and occupancy pattern analysis. Use computer vision for people counting and neural networks for system optimization.".data)

/-- Advisory paragraph for cybersecurity queries (line 722). -/
def advCyber : List Char :=
  ("🔒 **Cybersecurity & Privacy:** Implement zero-trust architecture, encrypt all data transmissions, regularly update IoT device firmware, and conduct vulnerability assessments. Ensure compliance with data protection regulations.".data)

/-- Advisory paragraph for digital-twin queries (line 726). -/
def advDigitalTwin : List Char :=
  ("📊 **Digital Twins & Simulation:** Create virtual building models for performance optimization, predictive maintenance, and scenario testing. Use real-time sensor data to validate and update digital twin accuracy.".data)

/-- Advisory paragraph for retrofit queries (line 730). -/
def advRetrofit : List Char :=
  ("🔧 **Retrofit & Modernization:** Prioritize upgrades based on ROI analysis, integrate new technology with existing systems, and plan phased implementations to minimize disruption. Consider energy efficiency incentives and rebates.".data)

/-- Advisory paragraph for regulatory queries (line 734). -/
def advRegulatory : List Char :=
  ("📋 **Regulatory Compliance:** Ensure adherence to building codes, ADA accessibility requirements, fire safety standards, and environmental regulations. Maintain proper documentation and schedule regular inspections.".data)

/-- Advisory paragraph for benchmarking queries (line 738). -/
def advBenchmark : List Char :=
  ("📈 **Performance Benchmarking:** Track energy use intensity (EUI), compare against industry standards, monitor occupant satisfaction scores, and implement continuous improvement strategies. Use ENERGY STAR Portfolio Manager for benchmarking.".data)

/-- Advisory paragraph for emergency-preparedness queries (line 742). -/
def advEmergencyPrep : List Char :=
  ("🚨 **Emergency Preparedness:** Develop comprehensive emergency response plans, maintain backup systems, conduct regular drills, and ensure clear communication protocols. Implement redundant systems for critical operations.".data)

/-- Advisory paragraph for occupant-wellness queries (line 746). -/
def advWellness : List Char :=
  ("😌 **Occupant Wellness:** Optimize indoor air quality (CO2 <800 ppm), maintain comfortable temperature (68-72°F), provide adequate lighting (300-500 lux), and implement noise control measures. Use biophilic design elements.".data)

/-- Advisory paragraph for predictive-analytics queries (line 750). -/
def advPredictive : List Char :=
  ("🔮 **Predictive Analytics:** Implement machine learning algorithms for failure prediction, energy forecasting, and anomaly detection. Use historical data to identify patterns and optimize maintenance schedules proactively.".data)

/-- The catch-all advisory of line 754. -/
def advGeneralMgmt : List Char :=
  ("🏢 **Building Management:** Implement comprehensive building automation systems with regular maintenance schedules, energy monitoring, and automated controls for optimal performance and efficiency.".data)

/-- Header line 665. -/
def webHeader : List Char := ("🌐 **Web Sources Information:**".data)

/-- `any(term in query_lower for term in [...])`. -/
def anyTerm (ql : List Char) (terms : List (List Char)) : Bool :=
  terms.any (fun t => hasSub t ql)

/-- The 21 sequential query checks of lines 669-750, in source order:
each entry is the keyword list of one `if any(term in query_lower ...)`
statement paired with the advisory it appends. -/
def queryAdvisoryTable : List (List (List Char) × List Char) :=
  [([("hvac".data), ("heating".data), ("cooling".data), ("temperature".data),
     ("thermostat".data), ("ac".data), ("air conditioning".data), ("climate".data)],
    advHvac),
   ([("lighting".data), ("lights".data), ("illumination".data), ("led".data),
     ("bulb".data), ("brightness".data)], advLighting),
   ([("energy".data), ("power".data), ("efficiency".data), ("consumption".data),
     ("electricity".data), ("kwh".data)], advEnergy),
   ([("safety".data), ("fire".data), ("emergency".data), ("smoke".data),
     ("detector".data), ("alarm".data), ("co2".data)], advSafety),
   ([("security".data), ("camera".data), ("lock".data), ("access".data),
     ("surveillance".data), ("motion".data)], advSecurity),
   ([("room".data), ("floor".data), ("classroom".data), ("capacity".data),
     ("space".data), ("occupancy".data)], advRoom),
   ([("equipment".data), ("device".data), ("sensor".data), ("monitor".data),
     ("controller".data), ("smart".data)], advEquipment),
   ([("maintenance".data), ("repair".data), ("service".data), ("technician".data),
     ("install".data), ("filter".data)], advMaintenance),
   ([("automation".data), ("smart".data), ("control".data), ("system".data),
     ("iot".data), ("integration".data)], advAutomation),
   ([("environmental".data), ("air quality".data), ("humidity".data),
     ("moisture".data), ("leak".data), ("water".data)], advEnvironmental),
   ([("cost".data), ("budget".data), ("money".data), ("expense".data),
     ("financial".data), ("savings".data)], advCost),
   ([("building".data), ("name".data), ("location".data), ("floors".data),
     ("rooms".data), ("information".data), ("overview".data)], advBuildingInfo),
   ([("ai".data), ("machine learning".data), ("ml".data), ("neural network".data),
     ("algorithm".data), ("prediction".data), ("analytics".data)], advAiMl),
   ([("cybersecurity".data), ("security".data), ("privacy".data),
     ("encryption".data), ("hack".data), ("cyber".data), ("vulnerability".data)],
    advCyber),
   ([("digital twin".data), ("simulation".data), ("model".data), ("virtual".data),
     ("twin".data), ("digital model".data)], advDigitalTwin),
   ([("retrofit".data), ("modernization".data), ("upgrade".data),
     ("renovation".data), ("legacy".data), ("old system".data)], advRetrofit),
   ([("regulation".data), ("compliance".data), ("code".data), ("standard".data),
     ("permit".data), ("inspection".data), ("ada".data), ("osha".data)],
    advRegulatory),
   ([("benchmark".data), ("performance".data), ("kpi".data), ("metrics".data),
     ("comparison".data), ("standard".data), ("rating".data)], advBenchmark),
   ([("emergency".data), ("disaster".data), ("crisis".data), ("backup".data),
     ("resilience".data), ("continuity".data), ("evacuation".data)],
    advEmergencyPrep),
   ([("wellness".data), ("comfort".data), ("satisfaction".data), ("occupant".data),
     ("experience".data), ("productivity".data), ("health".data)], advWellness),
   ([("predictive".data), ("analytics".data), ("forecast".data), ("trend".data),
     ("pattern".data), ("anomaly".data), ("detection".data)], advPredictive)]

/-- The advisory part of `synthesized_info`: the 21 independent `if`
statements of lines 669-750 run in order, each appending its advisory
when any of its keywords occurs in the lowercased query. -/
def advisoryChain (ql : List Char) : List (List Char) :=
  queryAdvisoryTable.foldr (fun p acc => if anyTerm ql p.1 then p.2 :: acc else acc) []

/-- Modelled from the claim wording of C1 (first matching topic wins,
exactly one advisory): classify the query to the FIRST topic in the table
whose keyword list matches and emit only that advisory.  This is the
spec-side definition compared against `advisoryChain`. -/
def classifyFirstMatch (ql : List Char) : List (List Char) :=
  match queryAdvisoryTable.find? (fun p => anyTerm ql p.1) with
  | some p => [p.2]
  | none => []

/-- The content-bucketing `elif` chain of lines 633-654, in source order
(hvac, lighting, energy, safety, security, room, equipment, maintenance,
automation, environmental, cost). -/
def contentCategoryTable : List (List (List Char)) :=
  [[("hvac".data), ("heating".data), ("cooling".data), ("ventilation".data),
    ("temperature".data), ("thermostat".data), ("ac".data),
    ("air conditioning".data), ("climate".data)],
   [("lighting".data), ("led".data), ("bulb".data), ("illumination".data),
    ("brightness".data), ("light".data), ("lamp".data)],
   [("energy".data), ("power".data), ("consumption".data), ("efficiency".data),
    ("kwh".data), ("electricity".data), ("electrical".data), ("meter".data)],
   [("safety".data), ("fire".data), ("emergency".data), ("alarm".data),
    ("smoke".data), ("detector".data), ("co2".data)],
   [("security".data), ("camera".data), ("lock".data), ("access".data),
    ("motion".data), ("surveillance".data)],
   [("room".data), ("floor".data), ("classroom".data), ("capacity".data),
    ("space".data)],
   [("equipment".data), ("device".data), ("sensor".data), ("monitor".data),
    ("controller".data)],
   [("maintenance".data), ("repair".data), ("service".data), ("technician".data),
    ("install".data)],
   [("automation".data), ("smart".data), ("control".data), ("system".data),
    ("iot".data)],
   [("environmental".data), ("air quality".data), ("humidity".data),
    ("moisture".data), ("leak".data)],
   [("cost".data), ("budget".data), ("money".data), ("expense".data),
    ("financial".data), ("savings".data)]]

/-- The bucket index of a retrieved chunk under the `elif` chain: the
first matching bucket, with 11 (= general) when none matches. -/
def contentCat (content : List Char) : ℕ :=
  contentCategoryTable.findIdx (fun terms => anyTerm (pyLower content) terms)

/-- Lines 661-666: the web-sources block of `synthesized_info`, present
when some retrieved chunk is web-sourced and the extraction found
something. -/
def webSection (results : List SearchR) (query : List Char) : List (List Char) :=
  let items := results.filterMap (fun r =>
    if isWebResult r then some (webItemOf r) else none)
  if items.isEmpty then []
  else
    let winfo := extract_specific_info_from_web_content items query
    if winfo.isEmpty then [] else [webHeader, winfo]

/-- The full `synthesized_info` list: the web block, then the advisory
chain, then the line-753 catch-all when nothing else matched and some
chunk landed in the hvac, lighting, energy or general bucket. -/
def contextSections (results : List SearchR) (query : List Char) :
    List (List Char) :=
  let base := webSection results query ++ advisoryChain (pyLower query)
  if base.isEmpty &&
      (results.any (fun r => contentCat r.content == 0) ||
       results.any (fun r => contentCat r.content == 1) ||
       results.any (fun r => contentCat r.content == 2) ||
       results.any (fun r => contentCat r.content == 11)) then
    [advGeneralMgmt]
  else base

/-- `get_context_for_query`: empty for no search results, otherwise the
newline-join of `synthesized_info` (and `""` when that list is empty). -/
def get_context_for_query (results : List SearchR) (query : List Char) :
    List Char :=
  if results.isEmpty then [] else joinNl (contextSections results query)

end Synthesis

/-! ## Helper theorems -/

theorem chunkLoop_terminates (text : List Char) (size overlap : ℕ)
    (hov : overlap < size) :
    ∀ fuel start, text.length - start < fuel →
      ∃ l, chunkLoop text size overlap fuel start = some l := by
  intro fuel
  induction fuel with
  | zero => intro start h; omega
  | succ n ih =>
    intro start h
    by_cases hs : start < text.length
    · have hstep : text.length - (start + size - overlap) < n := by omega
      obtain ⟨l, hl⟩ := ih (start + size - overlap) hstep
      refine ⟨((text.drop start).take size) :: l, ?_⟩
      simp [chunkLoop, hs, hl]
    · exact ⟨[], by simp [chunkLoop, hs]⟩

theorem chunkLoop_spec (text : List Char) (size overlap : ℕ)
    (hov : overlap < size) :
    ∀ fuel start l, chunkLoop text size overlap fuel start = some l →
      l.length = (text.length - start + (size - overlap) - 1) / (size - overlap) ∧
      ∀ i (hi : i < l.length),
        l.get ⟨i, hi⟩ = (text.drop (start + i * (size - overlap))).take size := by
  intro fuel
  induction fuel with
  | zero => intro start l h; simp [chunkLoop] at h
  | succ n ih =>
    intro start l h
    by_cases hs : start < text.length
    · simp only [chunkLoop, if_pos hs] at h
      cases hrec : chunkLoop text size overlap n (start + size - overlap) with
      | none => rw [hrec] at h; simp at h
      | some rest =>
        rw [hrec] at h
        simp only [Option.some.injEq] at h
        obtain ⟨hlen, hget⟩ := ih (start + size - overlap) rest hrec
        subst h
        constructor
        · have hstart : start + size - overlap = start + (size - overlap) := by omega
          rw [hstart] at hlen
          simp only [List.length_cons, hlen]
          have hstep : 0 < size - overlap := by omega
          have ha : 1 ≤ text.length - start := by omega
          rcases Nat.lt_or_ge (text.length - start) (size - overlap) with hc | hc
          · have h1 : text.length - (start + (size - overlap)) = 0 := by omega
            rw [h1, Nat.div_eq_of_lt (by omega : 0 + (size - overlap) - 1 < size - overlap)]
            have h2 : text.length - start + (size - overlap) - 1 =
                (text.length - start - 1) + (size - overlap) := by omega
            rw [h2, Nat.add_div_right _ hstep,
                Nat.div_eq_of_lt (by omega : text.length - start - 1 < size - overlap)]
          · have h1 : text.length - (start + (size - overlap)) =
                text.length - start - (size - overlap) := by omega
            rw [h1]
            have h2 : text.length - start + (size - overlap) - 1 =
                (text.length - start - (size - overlap) + (size - overlap) - 1) +
                  (size - overlap) := by omega
            rw [h2, Nat.add_div_right _ hstep]
        · intro i hi
          cases i with
          | zero => simp
          | succ j =>
            simp only [List.length_cons, Nat.succ_lt_succ_iff] at hi
            have := hget j hi
            simp only [List.get_cons_succ, this]
            congr 2
            rw [Nat.succ_mul]
            omega
    · simp only [chunkLoop, if_neg hs] at h
      simp only [Option.some.injEq] at h
      subst h
      constructor
      · have h0 : text.length - start = 0 := by omega
        rw [h0]
        exact (Nat.div_eq_of_lt (by omega)).symm
      · intro i hi; simp at hi

theorem chunk_text_spec (text : List Char) (size overlap : ℕ)
    (hov : overlap < size) :
    ∃ l, chunk_text text size overlap = some l ∧
      l.length = (text.length + (size - overlap) - 1) / (size - overlap) ∧
      (∀ i (hi : i < l.length),
        l.get ⟨i, hi⟩ = (text.drop (i * (size - overlap))).take size) ∧
      (∀ i (hi : i < l.length),
        (l.get ⟨i, hi⟩).length = min size (text.length - i * (size - overlap))) ∧
      (text = [] → l = []) := by
  obtain ⟨l, hl⟩ :=
    chunkLoop_terminates text size overlap hov (text.length + 1) 0 (by omega)
  obtain ⟨hlen, hget⟩ := chunkLoop_spec text size overlap hov _ 0 l hl
  refine ⟨l, hl, ?_, ?_, ?_, ?_⟩
  · simpa using hlen
  · intro i hi
    simpa using hget i hi
  · intro i hi
    have h := hget i hi
    simp only [Nat.zero_add] at h
    rw [h, List.length_take, List.length_drop]
  · intro he
    subst he
    have h0 : l.length = 0 := by
      simp only [List.length_nil, Nat.zero_sub, Nat.zero_add] at hlen
      rw [hlen]
      exact Nat.div_eq_of_lt (by omega)
    exact List.length_eq_zero.mp h0

theorem mem_insDesc {β : Type} (x y : β × ℕ) (l : List (β × ℕ)) :
    y ∈ insDesc x l ↔ y = x ∨ y ∈ l := by
  induction l with
  | nil => simp [insDesc]
  | cons z zs ih =>
    by_cases h : z.2 < x.2
    · simp [insDesc, h]
    · simp [insDesc, h, ih]
      tauto

theorem mem_sortDesc {β : Type} (y : β × ℕ) (l : List (β × ℕ)) :
    y ∈ sortDesc l ↔ y ∈ l := by
  induction l with
  | nil => simp [sortDesc]
  | cons z zs ih => simp [sortDesc, mem_insDesc, ih]

theorem scoredResults_mem {α : Type} (docs : List (List Char × α))
    (query : List Char) (s : (List Char × α) × ℕ)
    (h : s ∈ scoredResults docs query) :
    0 < s.2 ∧ s.2 ≤ qwCount query := by
  unfold scoredResults at h
  obtain ⟨d, _, hd⟩ := List.mem_filterMap.mp h
  by_cases hov : 0 < overlapScore query d.1
  · rw [if_pos hov] at hd
    have hs : s = (d, overlapScore query d.1) := by
      simpa using hd.symm
    subst hs
    refine ⟨hov, ?_⟩
    unfold overlapScore qwCount
    exact List.length_filter_le _ _
  · rw [if_neg hov] at hd
    simp at hd

theorem fallback_dist_bounds {α : Type} (docs : List (List Char × α))
    (query : List Char) (n : ℕ) (r : (List Char × α) × ℚ)
    (h : r ∈ fallbackSearch docs query n) : 0 ≤ r.2 ∧ r.2 < 1 := by
  unfold fallbackSearch at h
  obtain ⟨s, hs, hr⟩ := List.mem_map.mp h
  have hs2 : s ∈ scoredResults docs query :=
    (mem_sortDesc s _).mp (List.mem_of_mem_take hs)
  obtain ⟨hpos, hle⟩ := scoredResults_mem docs query s hs2
  have hqw : 0 < qwCount query := lt_of_lt_of_le hpos hle
  have hq0 : (0 : ℚ) < (qwCount query : ℚ) := by exact_mod_cast hqw
  have hcast : (s.2 : ℚ) ≤ (qwCount query : ℚ) := by exact_mod_cast hle
  have hcpos : (0 : ℚ) < (s.2 : ℚ) := by exact_mod_cast hpos
  have hdistval : r.2 = 1 - (s.2 : ℚ) / (qwCount query : ℚ) := by
    rw [← hr]
  constructor
  · rw [hdistval]
    have : (s.2 : ℚ) / (qwCount query : ℚ) ≤ 1 := (div_le_one hq0).mpr hcast
    linarith
  · rw [hdistval]
    have : 0 < (s.2 : ℚ) / (qwCount query : ℚ) := div_pos hcpos hq0
    linarith

theorem fallback_empty_query {α : Type} (docs : List (List Char × α))
    (query : List Char) (n : ℕ) (h : pySplitWs (pyLower query) = []) :
    fallbackSearch docs query n = [] := by
  have hscored : scoredResults docs query = [] := by
    unfold scoredResults overlapScore
    rw [List.filterMap_eq_nil]
    intro d _
    rw [h]
    simp
  unfold fallbackSearch
  rw [hscored]
  simp [sortDesc]

/-- C2: the claim asserts that some query with at least one word and some
stored chunk produce a negative fallback distance
`1 - score/len(query_words)`.  This is impossible: the intersection of
the query word set with the chunk word set never has more elements than
the query word set, so `score ≤ len(query_words)` and the distance is
nonnegative.  The closed counterexample statement proves the claim false. -/
theorem C2_no_negative_distance :
    ¬ ∃ (docs : List (List Char × Unit)) (query : List Char) (n : ℕ)
        (r : (List Char × Unit) × ℚ),
        0 < qwCount query ∧ r ∈ fallbackSearch docs query n ∧ r.2 < 0 := by
  rintro ⟨docs, query, n, r, -, hmem, hneg⟩
  exact absurd hneg
    (not_lt.mpr (fallback_dist_bounds docs query n r hmem).1)

/-- C2 amended: in the keyword-overlap fallback of `search_documents`,
every reported distance `1 - score/len(query_words)` lies in `[0, 1)`,
because `1 ≤ score ≤ len(query_words)` for every scored chunk; a negative
distance is unreachable. -/
theorem C2_distance_in_unit_range {α : Type} (docs : List (List Char × α))
    (query : List Char) (n : ℕ) (r : (List Char × α) × ℚ)
    (h : r ∈ fallbackSearch docs query n) : 0 ≤ r.2 ∧ r.2 < 1 :=
  fallback_dist_bounds docs query n r h

theorem C2_distance_in_unit_range_witness :
    0 ≤ (((("hello world".data), ()), (0 : ℚ)) : (List Char × Unit) × ℚ).2 ∧
    (((("hello world".data), ()), (0 : ℚ)) : (List Char × Unit) × ℚ).2 < 1 := by
  refine C2_distance_in_unit_range [(("hello world".data), ())] ("hello".data) 5
    ((("hello world".data), ()), (0 : ℚ)) ?_
  have h1 : sortDesc (scoredResults [(("hello world".data), ())] ("hello".data))
      = [((("hello world".data), ()), 1)] := by decide
  have h2 : qwCount ("hello".data) = 1 := by decide
  unfold fallbackSearch
  rw [h1, h2]
  norm_num

/-- C9: the claim asserts the division `1 - (score / len(query_words))`
is reachable with `len(query_words) = 0`.  It is not: with an empty query
word set no stored chunk can have a positive overlap score, so
`text_results` stays empty and the distance expression (the only site
dividing by `len(query_words)`) is never evaluated — the fallback returns
the empty list.  Reachability of the division is rendered as the fallback
returning at least one entry (each returned entry carries the evaluated
distance). -/
theorem C9_division_unreachable :
    ¬ ∃ (docs : List (List Char × Unit)) (query : List Char) (n : ℕ),
        pySplitWs (pyLower query) = [] ∧ fallbackSearch docs query n ≠ [] := by
  rintro ⟨docs, query, n, hq, hne⟩
  exact hne (fallback_empty_query docs query n hq)

/-- C9 amended: for every query whose tokenization yields an empty word
set, the keyword-overlap fallback of `search_documents` returns the empty
list, so the expression dividing by `len(query_words)` is never evaluated
and no explicit guard is needed for behavioural safety. -/
theorem C9_empty_query_no_results {α : Type} (docs : List (List Char × α))
    (query : List Char) (n : ℕ) (h : pySplitWs (pyLower query) = []) :
    fallbackSearch docs query n = [] :=
  fallback_empty_query docs query n h

theorem C9_empty_query_no_results_witness :
    fallbackSearch [(("smart building".data), ())] ("   ".data) 5 = [] :=
  C9_empty_query_no_results [(("smart building".data), ())] ("   ".data) 5
    (by decide)

theorem length_incAt (v : List ℚ) (i : ℕ) : (incAt v i).length = v.length := by
  simp [incAt]

theorem foldl_inc_length (h : List Char → ℕ) (ws : List (List Char)) :
    ∀ v : List ℚ, (ws.foldl (fun v w => incAt v (h w % 100)) v).length = v.length := by
  induction ws with
  | nil => intro v; rfl
  | cons w rest ih =>
    intro v
    simp only [List.foldl_cons]
    rw [ih, length_incAt]

theorem sum_incAt (v : List ℚ) (i : ℕ) (hi : i < v.length) :
    (incAt v i).sum = v.sum + 1 := by
  induction v generalizing i with
  | nil => simp at hi
  | cons a t ih =>
    cases i with
    | zero => simp [incAt, List.getD]; ring
    | succ j =>
      have hj : j < t.length := by simpa using hi
      have hrec := ih j hj
      simp only [incAt, List.set_cons_succ, List.getD_cons_succ, List.sum_cons] at *
      rw [hrec]
      ring

theorem foldl_inc_sum (h : List Char → ℕ) (ws : List (List Char)) :
    ∀ v : List ℚ, v.length = 100 →
      (ws.foldl (fun v w => incAt v (h w % 100)) v).sum = v.sum + (ws.length : ℚ) := by
  induction ws with
  | nil => intro v _; simp
  | cons w rest ih =>
    intro v hv
    simp only [List.foldl_cons, List.length_cons]
    rw [ih (incAt v (h w % 100)) (by rw [length_incAt, hv]),
        sum_incAt v _ (by rw [hv]; exact Nat.mod_lt _ (by norm_num))]
    push_cast
    ring

theorem foldl_inc_nonneg (h : List Char → ℕ) (ws : List (List Char)) :
    ∀ v : List ℚ, (∀ x ∈ v, 0 ≤ x) →
      ∀ x ∈ ws.foldl (fun v w => incAt v (h w % 100)) v, 0 ≤ x := by
  induction ws with
  | nil => intro v hv; exact hv
  | cons w rest ih =>
    intro v hv
    simp only [List.foldl_cons]
    refine ih (incAt v (h w % 100)) ?_
    intro x hx
    rcases List.mem_or_eq_of_mem_set hx with hmem | heq
    · exact hv x hmem
    · rw [heq]
      have : 0 ≤ v.getD (h w % 100) 0 := by
        rcases Nat.lt_or_ge (h w % 100) v.length with hlt | hge
        · rw [List.getD_eq_get _ _ hlt]
          exact hv _ (List.get_mem _ _ _)
        · rw [List.getD_eq_default _ _ hge]
      linarith

theorem embedCounts_length (h : List Char → ℕ) (ws : List (List Char)) :
    (embedCounts h ws).length = 100 := by
  unfold embedCounts
  rw [foldl_inc_length]
  simp

theorem embedCounts_sum (h : List Char → ℕ) (ws : List (List Char)) :
    (embedCounts h ws).sum = (ws.length : ℚ) := by
  unfold embedCounts
  rw [foldl_inc_sum h ws _ (by simp)]
  simp

theorem embedCounts_nonneg (h : List Char → ℕ) (ws : List (List Char)) :
    ∀ x ∈ embedCounts h ws, 0 ≤ x := by
  unfold embedCounts
  refine foldl_inc_nonneg h ws _ ?_
  intro x hx
  rw [List.eq_of_mem_replicate hx]

theorem sum_map_div (l : List ℚ) (t : ℚ) :
    (l.map (fun x => x / t)).sum = l.sum / t := by
  induction l with
  | nil => simp
  | cons a rest ih => simp [ih, add_div]

/-- C3: `simple_embedding` always returns exactly 100 non-negative
rationals; when the cleaned text has at least one alphanumeric token the
components sum to exactly 1, and when it has none the vector is all
zeros.  The Python builtin `hash` is universally quantified. -/
theorem C3_simple_embedding (h : List Char → ℕ) (text : List Char) :
    (simple_embedding h text).length = 100 ∧
    (∀ x ∈ simple_embedding h text, 0 ≤ x) ∧
    (cleanTokens text ≠ [] → (simple_embedding h text).sum = 1) ∧
    (cleanTokens text = [] → simple_embedding h text = List.replicate 100 0) := by
  have hemb : simple_embedding h text =
      (embedCounts h ((cleanTokens text).take 100)).map
        (fun x => x / (if (embedCounts h ((cleanTokens text).take 100)).sum = 0
          then 1 else (embedCounts h ((cleanTokens text).take 100)).sum)) := rfl
  have hlen := embedCounts_length h ((cleanTokens text).take 100)
  have hsum := embedCounts_sum h ((cleanTokens text).take 100)
  have hnn := embedCounts_nonneg h ((cleanTokens text).take 100)
  refine ⟨?_, ?_, ?_, ?_⟩
  · rw [hemb, List.length_map, hlen]
  · intro x hx
    rw [hemb] at hx
    obtain ⟨y, hy, hxy⟩ := List.mem_map.mp hx
    subst hxy
    have hy0 := hnn y hy
    by_cases h0 : (embedCounts h ((cleanTokens text).take 100)).sum = 0
    · rw [if_pos h0]
      exact div_nonneg hy0 (by norm_num)
    · rw [if_neg h0]
      have hge : (0 : ℚ) ≤ (embedCounts h ((cleanTokens text).take 100)).sum := by
        rw [hsum]
        positivity
      exact div_nonneg hy0 hge
  · intro hne
    have hpos : 0 < ((cleanTokens text).take 100).length := by
      cases hct : cleanTokens text with
      | nil => exact absurd hct hne
      | cons w ws =>
        simp only [List.length_take, List.length_cons]
        omega
    have hs0 : (embedCounts h ((cleanTokens text).take 100)).sum ≠ 0 := by
      rw [hsum]
      exact_mod_cast Nat.pos_iff_ne_zero.mp hpos
    rw [hemb, if_neg hs0, sum_map_div, div_self hs0]
  · intro heq
    rw [hemb, heq]
    simp only [List.take_nil]
    have hz : embedCounts h [] = List.replicate 100 (0 : ℚ) := rfl
    rw [hz]
    simp

theorem C3_simple_embedding_witness :
    (simple_embedding (fun w => w.length) ("hello world".data)).sum = 1 :=
  (C3_simple_embedding (fun w => w.length) ("hello world".data)).2.2.1 (by decide)

/-- C4 counterexample: for text `"abcdefghij"` with `chunk_size = 9` and
`overlap = 8` the run produces 10 chunks and the chunk at index 2 — not
the final chunk, since 10 chunks exist — has length 8 < 9.  This refutes
the claim's parenthetical that only the final chunk may be shorter than
`chunk_size`. -/
theorem C4_nonfinal_short_chunk :
    ((chunk_text ("abcdefghij".data) 9 8).getD []).length = 10 ∧
    (((chunk_text ("abcdefghij".data) 9 8).getD []).getD 2 []).length = 8 := by
  constructor <;> rfl

/-- C4 amended: for `overlap < chunk_size`, `chunk_text` returns the list
whose i-th chunk is the substring starting at `i * (chunk_size - overlap)`
of length `min chunk_size (len - i * (chunk_size - overlap))` (so any
chunk cut by the end of the text is shorter, not only the final one), the
chunk count is `ceil(len / (chunk_size - overlap))`, and the empty string
yields the empty list. -/
theorem C4_chunk_text_shape (text : List Char) (size overlap : ℕ)
    (hov : overlap < size) :
    ∃ l, chunk_text text size overlap = some l ∧
      l.length = (text.length + (size - overlap) - 1) / (size - overlap) ∧
      (∀ i (hi : i < l.length),
        l.get ⟨i, hi⟩ = (text.drop (i * (size - overlap))).take size) ∧
      (∀ i (hi : i < l.length),
        (l.get ⟨i, hi⟩).length = min size (text.length - i * (size - overlap))) ∧
      (text = [] → l = []) :=
  chunk_text_spec text size overlap hov

theorem C4_chunk_text_shape_witness :
    ∃ l, chunk_text ("abcde".data) 2 1 = some l ∧
      l.length = (("abcde".data).length + (2 - 1) - 1) / (2 - 1) ∧
      (∀ i (hi : i < l.length),
        l.get ⟨i, hi⟩ = (("abcde".data).drop (i * (2 - 1))).take 2) ∧
      (∀ i (hi : i < l.length),
        (l.get ⟨i, hi⟩).length = min 2 (("abcde".data).length - i * (2 - 1))) ∧
      (("abcde".data) = [] → l = []) :=
  C4_chunk_text_shape ("abcde".data) 2 1 (by decide)

/-- C8: the `chunk_text` loop terminates for every text whenever
`0 < chunk_size` and `overlap < chunk_size`, because each iteration
advances the start position by the positive step `chunk_size - overlap`;
under that precondition the fuelled loop completes within
`len(text) + 1` iterations and returns a finite list. -/
theorem C8_chunk_text_terminates (text : List Char) (size overlap : ℕ)
    (hpos : 0 < size) (hov : overlap < size) :
    ∃ l, chunk_text text size overlap = some l :=
  chunkLoop_terminates text size overlap hov (text.length + 1) 0 (by omega)

theorem C8_chunk_text_terminates_witness :
    ∃ l, chunk_text ("ab".data) 2 1 = some l :=
  C8_chunk_text_terminates ("ab".data) 2 1 (by decide) (by decide)

/-- C5: the first half of the claim holds — `extract_text_from_file`
returns the `"Unsupported file format"` sentinel for the unrecognized
extension `.xyz` — but the second half fails on the code:
`add_document` guards only against empty text and the `"Error"` prefix
(`if not text or text.startswith("Error")`), so the sentinel passes the
guard, is chunked, and is ingested into the collection with result
`True`.  The guard's evident intent (skip failed extractions, as the spec
states) is defeated for this sentinel, so this is a code bug: the theorem
evaluates both functions at the failing input. -/
theorem C5_unsupported_sentinel_ingested :
    extract_text_from_file (ExtractOutcome.ok []) ("manual.xyz".data) (".xyz".data)
      = ("Unsupported file format".data) ∧
    add_document [] ("Unsupported file format".data)
      = (true, [("Unsupported file format".data)]) := by
  constructor
  · rfl
  · rfl

/-- C7: on the Tier-D pure in-process fallback, `query_documents` ignores
the query embedding entirely (two different embeddings give identical
results), returns exactly the first `min n_results count` stored entries
in insertion order, and reports the fixed placeholder distance `0.5` for
every returned match — no similarity ranking of any kind. -/
theorem C7_tier_d_query (mu : Type) (st : List (List Char × FbEntry mu))
    (qe qe2 : List (List ℚ)) (n : ℕ) :
    query_documents st qe n = query_documents st qe2 n ∧
    (query_documents st qe n).documents =
      [(st.map (fun p => p.2.document)).take n] ∧
    (query_documents st qe n).distances =
      [List.replicate (min n st.length) ((1 : ℚ) / 2)] ∧
    ((query_documents st qe n).documents.getD 0 []).length = min n st.length := by
  have hlen : ((st.map (fun p => p.2)).take n).length = min n st.length := by
    rw [List.length_take, List.length_map]
  have hdoc : ((st.map (fun p => p.2)).take n).map (fun e => e.document)
      = (st.map (fun p => p.2.document)).take n := by
    rw [List.map_take, List.map_map]
    rfl
  by_cases hsr : ((st.map (fun p => p.2)).take n).isEmpty
  · have hnil : (st.map (fun p => p.2)).take n = [] := by
      simpa using hsr
    have hmin : min n st.length = 0 := by
      rw [← hlen, hnil]
      rfl
    have hnil2 : (st.map (fun p => p.2.document)).take n = [] := by
      apply List.eq_nil_of_length_eq_zero
      rw [List.length_take, List.length_map]
      exact hmin
    refine ⟨rfl, ?_, ?_, ?_⟩ <;>
      simp [query_documents, hnil, hnil2, hmin]
  · refine ⟨rfl, ?_, ?_, ?_⟩ <;>
      simp [query_documents, hsr, hdoc, hlen]

theorem C7_tier_d_query_witness :
    query_documents [(("id1".data), ⟨("doc1".data), (), []⟩)]
        ([] : List (List ℚ)) 2 =
      query_documents [(("id1".data), ⟨("doc1".data), (), []⟩)] [[(1 : ℚ)]] 2 ∧
    (query_documents [(("id1".data), ⟨("doc1".data), (), []⟩)]
        ([] : List (List ℚ)) 2).documents =
      [(([(("id1".data), (⟨("doc1".data), (), []⟩ : FbEntry Unit))]).map
          (fun p => p.2.document)).take 2] ∧
    (query_documents [(("id1".data), ⟨("doc1".data), (), []⟩)]
        ([] : List (List ℚ)) 2).distances =
      [List.replicate
        (min 2 ([(("id1".data), (⟨("doc1".data), (), []⟩ : FbEntry Unit))]).length)
        ((1 : ℚ) / 2)] ∧
    ((query_documents [(("id1".data), ⟨("doc1".data), (), []⟩)]
        ([] : List (List ℚ)) 2).documents.getD 0 []).length =
      min 2 ([(("id1".data), (⟨("doc1".data), (), []⟩ : FbEntry Unit))]).length :=
  C7_tier_d_query Unit [(("id1".data), ⟨("doc1".data), (), []⟩)] [] [[(1 : ℚ)]] 2

/-- C10: whenever the text extracted from a URL starts with the `"Error"`
sentinel or has fewer than 100 characters after stripping whitespace,
`add_url_to_knowledge_base` returns `False` and leaves the collection
unchanged, so no web-sourced document shorter than 100 stripped
characters is ever ingested through the URL path. -/
theorem C10_add_url_guard (coll : List (List Char)) (text : List Char)
    (h : startsW text ("Error".data) = true ∨ (pyStrip text).length < 100) :
    add_url_to_knowledge_base coll text = (false, coll) := by
  unfold add_url_to_knowledge_base
  by_cases hs : startsW text ("Error".data) = true
  · rw [if_pos hs]
  · have hlen : (pyStrip text).length < 100 := h.resolve_left hs
    rw [if_neg hs, if_pos hlen]

theorem C10_add_url_guard_witness :
    add_url_to_knowledge_base [] ("too short".data) = (false, []) :=
  C10_add_url_guard [] ("too short".data) (Or.inr (by decide))

theorem advisoryChain_eq_filter (ql : List Char) :
    advisoryChain ql =
      (queryAdvisoryTable.filter (fun p => anyTerm ql p.1)).map Prod.snd := by
  unfold advisoryChain
  generalize queryAdvisoryTable = t
  induction t with
  | nil => rfl
  | cons p rest ih =>
    by_cases h : anyTerm ql p.1
    · simp [List.filter_cons, h, ih]
    · simp [List.filter_cons, h, ih]

/-- C1 counterexample: the query checks of `get_context_for_query` are
independent `if` statements, not an exclusive first-match chain.  For the
query `"hvac and lighting"` both the hvac and the lighting keyword tests
match, so the synthesized advisory list contains TWO advisory paragraphs,
while the claimed exactly-one/first-match-wins classification
(`classifyFirstMatch`, built from the claim wording) would produce only
the hvac advisory.  This proves the claim false at a concrete input. -/
theorem C1_multiple_advisories :
    advisoryChain (pyLower ("hvac and lighting".data)) = [advHvac, advLighting] ∧
    classifyFirstMatch (pyLower ("hvac and lighting".data)) = [advHvac] ∧
    advisoryChain (pyLower ("hvac and lighting".data)) ≠
      classifyFirstMatch (pyLower ("hvac and lighting".data)) := by
  refine ⟨by rfl, by rfl, ?_⟩
  intro h
  have h2 : ([advHvac, advLighting] : List (List Char)).length =
      ([advHvac] : List (List Char)).length := by
    rw [← (by rfl : advisoryChain (pyLower ("hvac and lighting".data)) =
        [advHvac, advLighting]),
      ← (by rfl : classifyFirstMatch (pyLower ("hvac and lighting".data)) =
        [advHvac]), h]
  simp at h2

/-- C1 amended: `get_context_for_query` tests the query against each
topic keyword list independently, in the fixed source order, and appends
the advisory paragraph of EVERY matching topic (so several can be
appended); the bucketing is by substring membership of the keywords in the
lowercased query.  For the claim's test query
`"What temperature should I set the HVAC?"` exactly one topic (hvac)
matches, so that call yields the hvac advisory alone, also end to end
through `get_context_for_query` on a non-web search result. -/
theorem C1_query_advisories :
    (∀ ql, advisoryChain ql =
      (queryAdvisoryTable.filter (fun p => anyTerm ql p.1)).map Prod.snd) ∧
    advisoryChain (pyLower ("What temperature should I set the HVAC?".data))
      = [advHvac] ∧
    get_context_for_query [⟨("the office thermostat".data), none, none, none⟩]
      ("What temperature should I set the HVAC?".data) = advHvac :=
  ⟨advisoryChain_eq_filter, by rfl, by rfl⟩

theorem keyInfo_sublist (q c : List Char) :
    List.Sublist (keyInfoOf q c) ((pySplitOn '.' c).map pyStrip) := by
  unfold keyInfoOf relevantSentences
  exact (List.take_sublist _ _).trans (List.filter_sublist _)

theorem keyInfo_len (q c : List Char) : (keyInfoOf q c).length ≤ 3 := by
  unfold keyInfoOf
  exact List.length_take_le _ _

theorem keyInfo_mem (q c s : List Char) (h : s ∈ keyInfoOf q c) :
    20 < s.length ∧ 0 < matchCount q s := by
  unfold keyInfoOf at h
  have h2 := List.mem_of_mem_take h
  unfold relevantSentences at h2
  have h3 := (List.mem_filter.mp h2).2
  simp only [Bool.and_eq_true, decide_eq_true_eq] at h3
  exact h3

theorem sections_web_first (results : List SearchR) (q : List Char) :
    ∃ rest, contextSections results q = webSection results q ++ rest := by
  have hdef : contextSections results q =
      (if (webSection results q ++ advisoryChain (pyLower q)).isEmpty &&
          (results.any (fun r => contentCat r.content == 0) ||
           results.any (fun r => contentCat r.content == 1) ||
           results.any (fun r => contentCat r.content == 2) ||
           results.any (fun r => contentCat r.content == 11)) then
        [advGeneralMgmt]
      else webSection results q ++ advisoryChain (pyLower q)) := rfl
  rw [hdef]
  split
  next hcond =>
    rw [Bool.and_eq_true] at hcond
    have hbase := hcond.1
    have hnil : webSection results q ++ advisoryChain (pyLower q) = [] := by
      simpa using hbase
    have hw : webSection results q = [] := (List.append_eq_nil.mp hnil).1
    exact ⟨[advGeneralMgmt], by rw [hw]; rfl⟩
  next _ =>
    exact ⟨advisoryChain (pyLower q), rfl⟩

/-- C6 counterexample: `extract_specific_info_from_web_content` does not
rank sentences by word-overlap ratio and does not take the top two per
source: it takes the FIRST THREE qualifying sentences in document order
(`relevant_sentences[:3]`).  For the query `"alpha beta"` and a web chunk
whose four qualifying sentences have match counts 1, 1, 2, 2, the
surfaced list is the first three sentences in order — three entries, not
two — and the sentence with the strictly highest match count is omitted
entirely.  This proves the ranked-top-two claim false at a concrete
input. -/
theorem C6_first_three_not_top_two :
    keyInfoOf ("alpha beta".data)
      ("the alpha system runs well. the alpha unit is nearby. alpha beta controls everything here. alpha beta devices run greatly.".data)
      = [("the alpha system runs well".data), ("the alpha unit is nearby".data),
         ("alpha beta controls everything here".data)] ∧
    ("alpha beta devices run greatly".data) ∉
      keyInfoOf ("alpha beta".data)
        ("the alpha system runs well. the alpha unit is nearby. alpha beta controls everything here. alpha beta devices run greatly.".data) ∧
    matchCount ("alpha beta".data) ("the alpha system runs well".data) <
      matchCount ("alpha beta".data) ("alpha beta devices run greatly".data) := by
  refine ⟨by rfl, by decide, by decide⟩

/-- C6 amended: for web-sourced chunks the synthesizer surfaces, per
source, the first at most three stripped sentences (in document order, no
ranking) that are longer than 20 characters and contain at least one
query word, prefixed with the source domain and URL; and the web-sources
block always comes first in the synthesized section list, before any
topic advisory. -/
theorem C6_web_extraction_shape :
    (∀ q c, List.Sublist (keyInfoOf q c) ((pySplitOn '.' c).map pyStrip)) ∧
    (∀ q c, (keyInfoOf q c).length ≤ 3) ∧
    (∀ q c s, s ∈ keyInfoOf q c → 20 < s.length ∧ 0 < matchCount q s) ∧
    (∀ results q, ∃ rest,
      contextSections results q = webSection results q ++ rest) :=
  ⟨keyInfo_sublist, keyInfo_len, keyInfo_mem, sections_web_first⟩

theorem C6_web_extraction_shape_witness :
    20 < (("the hvac filter runs all day".data)).length ∧
    0 < matchCount ("hvac".data) ("the hvac filter runs all day".data) :=
  C6_web_extraction_shape.2.2.1 ("hvac".data)
    ("the hvac filter runs all day. short.".data)
    ("the hvac filter runs all day".data) (by decide)
